import Mathlib

/-!
Shallow embedding of the Game orchestrator of eva.js
(src/packages/eva.js/lib/game/Game.ts).

Lifecycle hooks are modelled by their observable behaviour: absent
(the duck-typed `obj.hook && obj.hook()` guard skips them), `ok`
(runs normally) or `throws` (raises an exception when invoked).
Hook invocations, console logs, observer wiring and emitter calls are
recorded as events in a trace; a JavaScript exception that unwinds out
of a function is modelled as an `Option Exn` result component, with the
state mutations performed before the throw kept (JS semantics).
The frame event `e` passed to update/lateUpdate carries no information
relevant to control flow and is omitted.
-/

namespace Eva

/-- Behaviour of one optional lifecycle hook. -/
inductive Hook
  | absent
  | ok
  | throws
deriving DecidableEq, Repr

/-- LOAD_SCENE_MODE from Game.ts. -/
inductive Mode
  | single
  | multiCanvas
deriving DecidableEq, Repr

/-- Observable events: hook invocations, console logs, ticker and
emitter calls, observer wiring. -/
inductive Ev
  | errLog (msg : String)
  | warnLog (msg : String)
  | sysStartHook (n : String)
  | sysUpdateHook (n : String)
  | sysLateHook (n : String)
  | sysPauseHook (n : String)
  | sysResumeHook (n : String)
  | sysInitHook (n : String)
  | sysAwakeHook (n : String)
  | sysDestroyHook (n : String)
  | compStartHook (c : String)
  | compUpdateHook (go c : String)
  | compLateHook (go c : String)
  | compPauseHook (go c : String)
  | compResumeHook (go c : String)
  | setGameRef (n : String)
  | setSysObs (n : String)
  | initObs (n : String)
  | tickerStart
  | tickerPause
  | sceneDestroy (n : String)
  | sceneChanged (n : String) (m : Mode) (p : Nat)
  | removeAllListeners
deriving DecidableEq, Repr

/-- A JavaScript exception escaping a function: either a lifecycle hook
threw (unit name, hook name) or a property of null was dereferenced. -/
inductive Exn
  | hookError (unit hook : String)
  | typeError
deriving DecidableEq, Repr

/-- A Component: `started` flag plus the optional hooks the orchestrator
touches.  `name` stands for both `name` and the static `componentName`
used in log messages. -/
structure Comp where
  name : String
  started : Bool
  start : Hook
  update : Hook
  lateUpdate : Hook
  onPause : Hook
  onResume : Hook
deriving DecidableEq, Repr

/-- A GameObject: an ordered collection of Components. -/
structure GObj where
  name : String
  components : List Comp
deriving DecidableEq, Repr

/-- A Scene: an ordered collection of GameObjects. -/
structure Scene where
  name : String
  gameObjects : List GObj
deriving DecidableEq, Repr

/-- A System.  `oid` models JavaScript reference identity of the
instance, `ctor` the identity of its concrete constructor, `supers` the
constructors further up its prototype chain (`instanceof` matches `ctor`
or any member of `supers`; `===` on constructors compares `ctor` only).
`gameRef` records whether `system.game` has been assigned. -/
structure Sys where
  oid : Nat
  name : String
  ctor : Nat
  supers : List Nat
  started : Bool
  gameRef : Bool
  init : Hook
  awake : Hook
  start : Hook
  update : Hook
  lateUpdate : Hook
  onPause : Hook
  onResume : Hook
  destroy : Hook
deriving DecidableEq, Repr

/-- The Game orchestrator state.  `ticker = false` and
`scene/multiScenes = none` model the null references left by
`destroy()`. -/
structure Game where
  playing : Bool
  started : Bool
  scene : Option Scene
  multiScenes : Option (List Scene)
  ticker : Bool
  systems : List Sys
deriving DecidableEq, Repr

/-- `hook && hook()` with no surrounding try: events of the invocation
and the exception, if any, that escapes. -/
def invoke (h : Hook) (ev : Ev) (ex : Exn) : List Ev × Option Exn :=
  match h with
  | .absent => ([], none)
  | .ok => ([ev], none)
  | .throws => ([ev], some ex)

/-- `try { hook && hook() } catch (e) { console.error(msg, e) }`:
the failure is contained and logged. -/
def invokeLogged (h : Hook) (ev : Ev) (msg : String) : List Ev :=
  match h with
  | .absent => []
  | .ok => [ev]
  | .throws => [ev, Ev.errLog msg]

/-- `triggerStart` on a System: no-op when already started, otherwise
invokes `start` inside a try/catch (logging `systemName start error`)
and sets `started = true` afterwards in every case. -/
def triggerStartS (s : Sys) : Sys × List Ev :=
  if s.started then (s, [])
  else
    ({s with started := true},
      invokeLogged s.start (Ev.sysStartHook s.name) (s.name ++ " start error"))

/-- `triggerStart` on a Component (logging `componentName start error`). -/
def triggerStartC (c : Comp) : Comp × List Ev :=
  if c.started then (c, [])
  else
    ({c with started := true},
      invokeLogged c.start (Ev.compStartHook c.name) (c.name ++ " start error"))

/-- One component of the first pass of `gameObjectLoop`:
`try { triggerStart(component); component.update && component.update(e) }`
with the catch logging `gameObject: <go> <comp> update error`.
(`triggerStart` itself never throws, so only `update` can reach the
catch.) -/
def compUpdateStep (go : String) (c : Comp) : Comp × List Ev :=
  let p := triggerStartC c
  (p.1, p.2 ++ invokeLogged p.1.update (Ev.compUpdateHook go p.1.name)
    ("gameObject: " ++ go ++ " " ++ p.1.name ++ " update error"))

/-- First pass of `gameObjectLoop` over the components of one
GameObject. -/
def compsUpdatePass (go : String) : List Comp → List Comp × List Ev
  | [] => ([], [])
  | c :: cs =>
    let p := compUpdateStep go c
    let q := compsUpdatePass go cs
    (p.1 :: q.1, p.2 ++ q.2)

/-- One component of the second pass:
`try { component.lateUpdate && component.lateUpdate(e) }`. -/
def compLateStep (go : String) (c : Comp) : List Ev :=
  invokeLogged c.lateUpdate (Ev.compLateHook go c.name)
    ("gameObject: " ++ go ++ " " ++ c.name ++ " lateUpdate error")

/-- Second pass of `gameObjectLoop` over the components of one
GameObject (no state change). -/
def compsLatePass (go : String) : List Comp → List Ev
  | [] => []
  | c :: cs => compLateStep go c ++ compsLatePass go cs

/-- First (update) loop of `gameObjectLoop` over all GameObjects. -/
def goLoopUpdate : List GObj → List GObj × List Ev
  | [] => ([], [])
  | go :: gos =>
    let p := compsUpdatePass go.name go.components
    let q := goLoopUpdate gos
    ({go with components := p.1} :: q.1, p.2 ++ q.2)

/-- Second (lateUpdate) loop of `gameObjectLoop` over all GameObjects. -/
def goLoopLate : List GObj → List Ev
  | [] => []
  | go :: gos => compsLatePass go.name go.components ++ goLoopLate gos

/-- `gameObjectLoop(e, gameObjects)`: full update pass over every
component of every gameObject, then full lateUpdate pass. -/
def gameObjectLoop (gos : List GObj) : List GObj × List Ev :=
  let p := goLoopUpdate gos
  (p.1, p.2 ++ goLoopLate p.1)

/-- `getAllGameObjects(game)`: main scene gameObjects (or []) followed
by the gameObjects of each secondary scene in order.
`game?.multiScenes.map(...)` dereferences `multiScenes` without a null
guard, so a null `multiScenes` raises a TypeError. -/
def getAllGameObjects (scene : Option Scene) (multi : Option (List Scene)) :
    Except Exn (List GObj) :=
  match multi with
  | none => .error .typeError
  | some scenes =>
    let mainGOs := match scene with
      | some sc => sc.gameObjects
      | none => []
    .ok (mainGOs ++ (scenes.map (·.gameObjects)).flatten)

/-- One system of the per-frame update pass:
`try { triggerStart(system); system.update && system.update(e) }`
with the catch logging `systemName update error`. -/
def sysUpdateStep (s : Sys) : Sys × List Ev :=
  let p := triggerStartS s
  (p.1, p.2 ++ invokeLogged p.1.update (Ev.sysUpdateHook p.1.name)
    (p.1.name ++ " update error"))

/-- Per-frame update pass over the System registry. -/
def sysUpdatePass : List Sys → List Sys × List Ev
  | [] => ([], [])
  | s :: ss =>
    let p := sysUpdateStep s
    let q := sysUpdatePass ss
    (p.1 :: q.1, p.2 ++ q.2)

/-- Per-frame lateUpdate pass over the System registry (no state
change). -/
def sysLatePass : List Sys → List Ev
  | [] => []
  | s :: ss =>
    invokeLogged s.lateUpdate (Ev.sysLateHook s.name) (s.name ++ " lateUpdate error")
      ++ sysLatePass ss

/-- onPause sweep over the components of one GameObject
(`gameObjectPause`, each call independently guarded). -/
def compsPausePass (go : String) : List Comp → List Ev
  | [] => []
  | c :: cs =>
    invokeLogged c.onPause (Ev.compPauseHook go c.name)
      ("gameObject: " ++ go ++ ", " ++ c.name ++ ", onResume error")
      ++ compsPausePass go cs

/-- `gameObjectPause(gameObjects)`. -/
def gosPausePass : List GObj → List Ev
  | [] => []
  | go :: gos => compsPausePass go.name go.components ++ gosPausePass gos

/-- onResume sweep over the components of one GameObject
(`gameObjectResume`). -/
def compsResumePass (go : String) : List Comp → List Ev
  | [] => []
  | c :: cs =>
    invokeLogged c.onResume (Ev.compResumeHook go c.name)
      ("gameObject: " ++ go ++ ", " ++ c.name ++ ", onResume error")
      ++ compsResumePass go cs

/-- `gameObjectResume(gameObjects)`. -/
def gosResumePass : List GObj → List Ev
  | [] => []
  | go :: gos => compsResumePass go.name go.components ++ gosResumePass gos

/-- onPause sweep over the System registry (each call guarded). -/
def sysPausePass : List Sys → List Ev
  | [] => []
  | s :: ss =>
    invokeLogged s.onPause (Ev.sysPauseHook s.name) (s.name ++ ", onPause error")
      ++ sysPausePass ss

/-- onResume sweep over the System registry (each call guarded). -/
def sysResumePass : List Sys → List Ev
  | [] => []
  | s :: ss =>
    invokeLogged s.onResume (Ev.sysResumeHook s.name) (s.name ++ ", onResume error")
      ++ sysResumePass ss

/-- `Game.triggerPause`: gameObject sweep via the `gameObjects` getter
(which throws when `multiScenes` is null), then the System sweep. -/
def Game.triggerPause (g : Game) : List Ev × Option Exn :=
  match getAllGameObjects g.scene g.multiScenes with
  | .error ex => ([], some ex)
  | .ok gos => (gosPausePass gos ++ sysPausePass g.systems, none)

/-- `Game.triggerResume`. -/
def Game.triggerResume (g : Game) : List Ev × Option Exn :=
  match getAllGameObjects g.scene g.multiScenes with
  | .error ex => ([], some ex)
  | .ok gos => (gosResumePass gos ++ sysResumePass g.systems, none)

/-- `Game.pause`: no-op when not playing; otherwise
`playing = false; ticker.pause(); triggerPause()` (a null ticker would
raise a TypeError after `playing` is already cleared). -/
def Game.pause (g : Game) : Game × List Ev × Option Exn :=
  if g.playing = false then (g, [], none)
  else
    let g1 := {g with playing := false}
    if g.ticker then
      let p := g1.triggerPause
      (g1, Ev.tickerPause :: p.1, p.2)
    else (g1, [], some .typeError)

/-- `Game.start`: no-op when already playing; otherwise
`ticker.start(); playing = true; started = true`. -/
def Game.start (g : Game) : Game × List Ev × Option Exn :=
  if g.playing = true then (g, [], none)
  else if g.ticker then
    ({g with playing := true, started := true}, [Ev.tickerStart], none)
  else (g, [], some .typeError)

/-- `Game.resume`: no-op when already playing; otherwise
`ticker.start(); triggerResume(); playing = true`. -/
def Game.resume (g : Game) : Game × List Ev × Option Exn :=
  if g.playing = true then (g, [], none)
  else if g.ticker then
    let p := g.triggerResume
    match p.2 with
    | some ex => (g, Ev.tickerStart :: p.1, some ex)
    | none => ({g with playing := true}, Ev.tickerStart :: p.1, none)
  else (g, [], some .typeError)

/-- Argument of `addSystem`: a live instance (`S instanceof System`), a
constructor (`S instanceof Function`, in which case the code first runs
`new S(obj)`, producing an instance), or anything else (rejected with a
warning). -/
inductive AddArg
  | instArg (s : Sys)
  | ctorArg (s : Sys)
  | invalidArg
deriving Repr

/-- `Game.addSystem`: duplicate concrete-type check by `===` on
constructors, then `system.game = this`, `init` (unguarded),
`setSystemObserver`/`initObserver`, `awake` (guarded), push, return.
Result: (new state, events, returned value or absent, escaping
exception). -/
def Game.addSystem (g : Game) (a : AddArg) : Game × List Ev × Option Sys × Option Exn :=
  match a with
  | .invalidArg => (g, [Ev.warnLog "can only add System"], none, none)
  | .instArg s | .ctorArg s =>
    if g.systems.any (fun item => item.ctor == s.ctor) then
      (g, [Ev.warnLog (s.name ++ " System has been added")], none, none)
    else
      let s1 := {s with gameRef := true}
      let pInit := invoke s1.init (Ev.sysInitHook s1.name) (.hookError s1.name "init")
      let evsA := Ev.setGameRef s1.name :: pInit.1
      match pInit.2 with
      | some ex => (g, evsA, none, some ex)
      | none =>
        let evsB := evsA ++ [Ev.setSysObs s1.name, Ev.initObs s1.name]
          ++ invokeLogged s1.awake (Ev.sysAwakeHook s1.name) (s1.name ++ " awake error")
        ({g with systems := g.systems ++ [s1]}, evsB, some s1, none)

/-- Identifier accepted by `removeSystem`: a name string, a constructor,
or an instance. -/
inductive SysIdent
  | byName (n : String)
  | byCtor (c : Nat)
  | byInstance (s : Sys)
deriving Repr

/-- The `findIndex` used by `removeSystem`: name equality, `===` on
constructors, or `===` on instances (reference identity, `oid`). -/
def findSystemIdx (l : List Sys) : SysIdent → Option Nat
  | .byName n => l.findIdx? (fun s => s.name == n)
  | .byCtor c => l.findIdx? (fun s => s.ctor == c)
  | .byInstance s0 => l.findIdx? (fun s => s.oid == s0.oid)

/-- `Game.removeSystem`: early return on a falsy argument; otherwise
resolve an index; if found, invoke `destroy` with NO try/catch (a throw
escapes and the splice below is never reached), then splice the entry
out. -/
def Game.removeSystem (g : Game) (ident : Option SysIdent) : Game × List Ev × Option Exn :=
  match ident with
  | none => (g, [], none)
  | some idn =>
    match findSystemIdx g.systems idn with
    | none => (g, [], none)
    | some i =>
      match g.systems[i]? with
      | none => (g, [], none)
      | some s =>
        let p := invoke s.destroy (Ev.sysDestroyHook s.name) (.hookError s.name "destroy")
        match p.2 with
        | some ex => (g, p.1, some ex)
        | none => ({g with systems := g.systems.eraseIdx i}, p.1, none)

/-- Query accepted by `getSystem`: a name string or a constructor. -/
inductive GetQuery
  | byName (n : String)
  | byCtor (c : Nat)
deriving Repr

/-- `system instanceof S`: the concrete constructor or any constructor
on the prototype chain matches. -/
def instOf (s : Sys) (c : Nat) : Bool :=
  s.ctor == c || s.supers.contains c

/-- `Game.getSystem`: first system matching by name, or by `instanceof`
for a constructor query. -/
def Game.getSystem (g : Game) (q : GetQuery) : Option Sys :=
  g.systems.find? (fun s =>
    match q with
    | .byName n => s.name == n
    | .byCtor c => instOf s c)

/-- Writes the flattened, mutated gameObject list back into the
secondary scenes (the source mutates the component objects in place;
each scene keeps its own chunk of the flattened list). -/
def takeChunks : List GObj → List Scene → List Scene
  | _, [] => []
  | flat, sc :: rest =>
    {sc with gameObjects := flat.take sc.gameObjects.length} ::
      takeChunks (flat.drop sc.gameObjects.length) rest

/-- The per-frame callback registered by `initTicker`:
`this.scene && gameObjectLoop(e, this.gameObjects)` (the getter is only
evaluated when a primary scene exists), then the System update pass,
then the System lateUpdate pass. -/
def Game.tick (g : Game) : Game × List Ev × Option Exn :=
  let goPart : Game × List Ev × Option Exn :=
    match g.scene with
    | none => (g, [], none)
    | some sc =>
      match g.multiScenes with
      | none => (g, [], some .typeError)
      | some scenes =>
        let gos := sc.gameObjects ++ (scenes.map (·.gameObjects)).flatten
        let p := gameObjectLoop gos
        let sc1 := {sc with gameObjects := p.1.take sc.gameObjects.length}
        let scenes1 := takeChunks (p.1.drop sc.gameObjects.length) scenes
        ({g with scene := some sc1, multiScenes := some scenes1}, p.2, none)
  match goPart with
  | (g1, evs1, some ex) => (g1, evs1, some ex)
  | (g1, evs1, none) =>
    let p := sysUpdatePass g1.systems
    ({g1 with systems := p.1}, evs1 ++ p.2 ++ sysLatePass p.1, none)

/-- The loop of `destroySystems` over the snapshot `[...this.systems]`,
calling `removeSystem(system)` for each; an exception from a `destroy`
hook escapes the loop. -/
def destroyLoop (g : Game) : List Sys → Game × List Ev × Option Exn
  | [] => (g, [], none)
  | s :: rest =>
    let p := g.removeSystem (some (.byInstance s))
    match p.2.2 with
    | some ex => (p.1, p.2.1, some ex)
    | none =>
      let q := destroyLoop p.1 rest
      (q.1, p.2.1 ++ q.2.1, q.2.2)

/-- `Game.destroySystems`: remove each system of a snapshot of the
registry, then `this.systems = []` (reached only when no `destroy`
threw). -/
def Game.destroySystems (g : Game) : Game × List Ev × Option Exn :=
  let p := destroyLoop g g.systems
  match p.2.2 with
  | some ex => (p.1, p.2.1, some ex)
  | none => ({p.1 with systems := []}, p.2.1, none)

/-- `Game.destroy`: `removeAllListeners(); pause(); scene.destroy();
destroySystems();` then null out ticker, scene, canvas and multiScenes.
`scene.destroy()` on a null scene raises a TypeError. -/
def Game.destroy (g : Game) : Game × List Ev × Option Exn :=
  let p := g.pause
  match p.2.2 with
  | some ex => (p.1, Ev.removeAllListeners :: p.2.1, some ex)
  | none =>
    match p.1.scene with
    | none => (p.1, Ev.removeAllListeners :: p.2.1, some .typeError)
    | some sc =>
      let q := p.1.destroySystems
      match q.2.2 with
      | some ex =>
        (q.1, Ev.removeAllListeners :: (p.2.1 ++ Ev.sceneDestroy sc.name :: q.2.1), some ex)
      | none =>
        ({q.1 with ticker := false, scene := none, multiScenes := none},
          Ev.removeAllListeners :: (p.2.1 ++ Ev.sceneDestroy sc.name :: q.2.1), none)

/-- `Game.loadScene({scene, mode = SINGLE, params = {}})`: early return
when no scene is given; SINGLE assigns the primary scene, MULTI_CANVAS
pushes onto `multiScenes` (a TypeError on a null `multiScenes`); then
one `sceneChanged` emission. -/
def Game.loadScene (g : Game) (scene : Option Scene) (mode : Mode) (params : Nat) :
    Game × List Ev × Option Exn :=
  match scene with
  | none => (g, [], none)
  | some sc =>
    match mode with
    | .single =>
      ({g with scene := some sc}, [Ev.sceneChanged sc.name mode params], none)
    | .multiCanvas =>
      match g.multiScenes with
      | none => (g, [], some .typeError)
      | some ms =>
        ({g with multiScenes := some (ms ++ [sc])},
          [Ev.sceneChanged sc.name mode params], none)

/-! ## Event classifiers (phases of a frame tick) -/

/-- Events produced by the component update pass (including the lazy
`triggerStart` and contained-failure logs). -/
def isCompUpdPhase : Ev → Bool
  | .compStartHook _ => true
  | .compUpdateHook _ _ => true
  | .errLog _ => true
  | _ => false

/-- Events produced by the component lateUpdate pass. -/
def isCompLatePhase : Ev → Bool
  | .compLateHook _ _ => true
  | .errLog _ => true
  | _ => false

/-- Events produced by the System update pass. -/
def isSysUpdPhase : Ev → Bool
  | .sysStartHook _ => true
  | .sysUpdateHook _ => true
  | .errLog _ => true
  | _ => false

/-- Events produced by the System lateUpdate pass. -/
def isSysLatePhase : Ev → Bool
  | .sysLateHook _ => true
  | .errLog _ => true
  | _ => false

/-- Any Component hook invocation. -/
def isCompEv : Ev → Bool
  | .compStartHook _ => true
  | .compUpdateHook _ _ => true
  | .compLateHook _ _ => true
  | .compPauseHook _ _ => true
  | .compResumeHook _ _ => true
  | _ => false

/-! ## Concrete fixtures for scenarios and witnesses -/

/-- A baseline System: every hook absent. -/
def sys0 (o : Nat) (n : String) (c : Nat) : Sys :=
  { oid := o, name := n, ctor := c, supers := [], started := false, gameRef := false,
    init := Hook.absent, awake := Hook.absent, start := Hook.absent, update := Hook.absent,
    lateUpdate := Hook.absent, onPause := Hook.absent, onResume := Hook.absent,
    destroy := Hook.absent }

/-- A baseline Game: not playing, no scene, empty secondary scenes, a
live ticker, empty registry. -/
def game0 : Game :=
  { playing := false, started := false, scene := none, multiScenes := some [],
    ticker := true, systems := [] }

/-- A system whose destroy hook throws. -/
def sysDT : Sys := {sys0 1 "S" 1 with destroy := Hook.throws}

/-- A registry holding just `sysDT`. -/
def gRem : Game := {game0 with systems := [sysDT]}

/-- Three systems, the second of which has a throwing destroy hook. -/
def sysA : Sys := {sys0 1 "A" 1 with destroy := Hook.ok}

def sysBT : Sys := {sys0 2 "B" 2 with destroy := Hook.throws}

def sysC : Sys := {sys0 3 "C" 3 with destroy := Hook.ok}

def gABC : Game := {game0 with systems := [sysA, sysBT, sysC]}

/-- A game with a primary scene, ready to be destroyed. -/
def gLive : Game := {game0 with scene := some ⟨"scene", []⟩, started := true}

/-- A component with start/update/lateUpdate hooks. -/
def compU : Comp :=
  { name := "cu", started := false, start := Hook.ok, update := Hook.ok,
    lateUpdate := Hook.ok, onPause := Hook.absent, onResume := Hook.absent }

/-- A primary scene with one gameObject. -/
def scT : Scene := { name := "main", gameObjects := [{ name := "goA", components := [compU] }] }

/-- A secondary (MULTI_CANVAS) scene with one gameObject. -/
def scS : Scene := { name := "sec", gameObjects := [{ name := "goB", components := [compU] }] }

/-- A system with update and lateUpdate hooks. -/
def sysU : Sys := {sys0 9 "S" 9 with update := Hook.ok, lateUpdate := Hook.ok}

/-- A running game with a primary scene, one secondary scene and one
system. -/
def gT : Game :=
  { playing := true, started := true, scene := some scT, multiScenes := some [scS],
    ticker := true, systems := [sysU] }

/-- The same game without a primary scene (needScene: false). -/
def gN : Game := {gT with scene := none}

/-- A base-class system (constructor 100). -/
def sysBase : Sys := sys0 10 "Base" 100

/-- A subclass system: constructor 101, with 100 on its prototype
chain. -/
def sysSub : Sys := {sys0 11 "Sub" 101 with supers := [100]}

end Eva

namespace Eva

/-! ## Helper lemmas -/

theorem triggerStartS_fst (s : Sys) : (triggerStartS s).1 = {s with started := true} := by
  obtain ⟨o, n, ct, sup, st, gr, h1, h2, h3, h4, h5, h6, h7, h8⟩ := s
  cases st <;> simp [triggerStartS]

theorem triggerStartC_fst (c : Comp) : (triggerStartC c).1 = {c with started := true} := by
  obtain ⟨n, st, h1, h2, h3, h4, h5⟩ := c
  cases st <;> simp [triggerStartC]

theorem mem_invokeLogged {h : Hook} {ev : Ev} {msg : String} {x : Ev}
    (hx : x ∈ invokeLogged h ev msg) : x = ev ∨ x = Ev.errLog msg := by
  cases h <;> simp [invokeLogged] at hx <;> tauto

theorem invokeLogged_mem_self {h : Hook} {ev : Ev} {msg : String}
    (hh : h ≠ Hook.absent) : ev ∈ invokeLogged h ev msg := by
  cases h <;> simp [invokeLogged] at hh ⊢

theorem mem_triggerStartS_trace {s : Sys} {x : Ev} (hx : x ∈ (triggerStartS s).2) :
    x = Ev.sysStartHook s.name ∨ x = Ev.errLog (s.name ++ " start error") := by
  unfold triggerStartS at hx
  split at hx
  · simp at hx
  · exact mem_invokeLogged hx

theorem mem_triggerStartC_trace {c : Comp} {x : Ev} (hx : x ∈ (triggerStartC c).2) :
    x = Ev.compStartHook c.name ∨ x = Ev.errLog (c.name ++ " start error") := by
  unfold triggerStartC at hx
  split at hx
  · simp at hx
  · exact mem_invokeLogged hx

theorem triggerStartS_started {s : Sys} (h : s.started = true) : triggerStartS s = (s, []) := by
  simp [triggerStartS, h]

theorem triggerStartC_started {c : Comp} (h : c.started = true) : triggerStartC c = (c, []) := by
  simp [triggerStartC, h]

theorem mem_compUpdateStep {go : String} {c : Comp} {x : Ev}
    (hx : x ∈ (compUpdateStep go c).2) : isCompUpdPhase x = true := by
  unfold compUpdateStep at hx
  rcases List.mem_append.mp hx with hx | hx
  · rcases mem_triggerStartC_trace hx with rfl | rfl <;> rfl
  · rcases mem_invokeLogged hx with rfl | rfl <;> rfl

theorem mem_compsUpdatePass {go : String} {cs : List Comp} {x : Ev}
    (hx : x ∈ (compsUpdatePass go cs).2) : isCompUpdPhase x = true := by
  induction cs with
  | nil => simp [compsUpdatePass] at hx
  | cons c cs ih =>
    unfold compsUpdatePass at hx
    rcases List.mem_append.mp hx with hx | hx
    · exact mem_compUpdateStep hx
    · exact ih hx

theorem mem_compsLatePass {go : String} {cs : List Comp} {x : Ev}
    (hx : x ∈ compsLatePass go cs) : isCompLatePhase x = true := by
  induction cs with
  | nil => simp [compsLatePass] at hx
  | cons c cs ih =>
    unfold compsLatePass at hx
    rcases List.mem_append.mp hx with hx | hx
    · rcases mem_invokeLogged hx with rfl | rfl <;> rfl
    · exact ih hx

theorem mem_goLoopUpdate {gos : List GObj} {x : Ev}
    (hx : x ∈ (goLoopUpdate gos).2) : isCompUpdPhase x = true := by
  induction gos with
  | nil => simp [goLoopUpdate] at hx
  | cons go gos ih =>
    unfold goLoopUpdate at hx
    rcases List.mem_append.mp hx with hx | hx
    · exact mem_compsUpdatePass hx
    · exact ih hx

theorem mem_goLoopLate {gos : List GObj} {x : Ev}
    (hx : x ∈ goLoopLate gos) : isCompLatePhase x = true := by
  induction gos with
  | nil => simp [goLoopLate] at hx
  | cons go gos ih =>
    unfold goLoopLate at hx
    rcases List.mem_append.mp hx with hx | hx
    · exact mem_compsLatePass hx
    · exact ih hx

theorem mem_sysUpdateStep {s : Sys} {x : Ev}
    (hx : x ∈ (sysUpdateStep s).2) : isSysUpdPhase x = true := by
  unfold sysUpdateStep at hx
  rcases List.mem_append.mp hx with hx | hx
  · rcases mem_triggerStartS_trace hx with rfl | rfl <;> rfl
  · rcases mem_invokeLogged hx with rfl | rfl <;> rfl

theorem mem_sysUpdatePass {l : List Sys} {x : Ev}
    (hx : x ∈ (sysUpdatePass l).2) : isSysUpdPhase x = true := by
  induction l with
  | nil => simp [sysUpdatePass] at hx
  | cons s l ih =>
    unfold sysUpdatePass at hx
    rcases List.mem_append.mp hx with hx | hx
    · exact mem_sysUpdateStep hx
    · exact ih hx

theorem mem_sysLatePass {l : List Sys} {x : Ev}
    (hx : x ∈ sysLatePass l) : isSysLatePhase x = true := by
  induction l with
  | nil => simp [sysLatePass] at hx
  | cons s l ih =>
    unfold sysLatePass at hx
    rcases List.mem_append.mp hx with hx | hx
    · rcases mem_invokeLogged hx with rfl | rfl <;> rfl
    · exact ih hx

theorem mem_compUpdateStep_self {go : String} {c : Comp} (hu : c.update ≠ Hook.absent) :
    Ev.compUpdateHook go c.name ∈ (compUpdateStep go c).2 := by
  unfold compUpdateStep
  refine List.mem_append_right _ ?_
  rw [triggerStartC_fst]
  exact invokeLogged_mem_self hu

theorem coverage_compsUpdatePass {go : String} {cs : List Comp} {c : Comp}
    (hc : c ∈ cs) (hu : c.update ≠ Hook.absent) :
    Ev.compUpdateHook go c.name ∈ (compsUpdatePass go cs).2 := by
  induction cs with
  | nil => simp at hc
  | cons d cs ih =>
    unfold compsUpdatePass
    rcases List.mem_cons.mp hc with rfl | hc
    · exact List.mem_append_left _ (mem_compUpdateStep_self hu)
    · exact List.mem_append_right _ (ih hc)

theorem coverage_goLoopUpdate {gos : List GObj} {go : GObj} {c : Comp}
    (hg : go ∈ gos) (hc : c ∈ go.components) (hu : c.update ≠ Hook.absent) :
    Ev.compUpdateHook go.name c.name ∈ (goLoopUpdate gos).2 := by
  induction gos with
  | nil => simp at hg
  | cons d gos ih =>
    unfold goLoopUpdate
    rcases List.mem_cons.mp hg with rfl | hg
    · exact List.mem_append_left _ (coverage_compsUpdatePass hc hu)
    · exact List.mem_append_right _ (ih hg)

theorem mem_sysUpdateStep_self {s : Sys} (hu : s.update ≠ Hook.absent) :
    Ev.sysUpdateHook s.name ∈ (sysUpdateStep s).2 := by
  unfold sysUpdateStep
  refine List.mem_append_right _ ?_
  rw [triggerStartS_fst]
  exact invokeLogged_mem_self hu

theorem coverage_sysUpdatePass {l : List Sys} {s : Sys}
    (hs : s ∈ l) (hu : s.update ≠ Hook.absent) :
    Ev.sysUpdateHook s.name ∈ (sysUpdatePass l).2 := by
  induction l with
  | nil => simp at hs
  | cons d l ih =>
    unfold sysUpdatePass
    rcases List.mem_cons.mp hs with rfl | hs
    · exact List.mem_append_left _ (mem_sysUpdateStep_self hu)
    · exact List.mem_append_right _ (ih hs)

theorem sysUpdatePass_fst (l : List Sys) :
    (sysUpdatePass l).1 = l.map (fun t => {t with started := true}) := by
  induction l with
  | nil => rfl
  | cons s l ih =>
    unfold sysUpdatePass sysUpdateStep
    simp [triggerStartS_fst, ih]

theorem compsUpdatePass_fst (go : String) (cl : List Comp) :
    (compsUpdatePass go cl).1 = cl.map (fun t => {t with started := true}) := by
  induction cl with
  | nil => rfl
  | cons c cl ih =>
    unfold compsUpdatePass compUpdateStep
    simp [triggerStartC_fst, ih]

theorem sysUpdatePass_no_start {l : List Sys} (hall : ∀ t ∈ l, t.started = true)
    {x : Ev} (hx : x ∈ (sysUpdatePass l).2) : ∀ n, x ≠ Ev.sysStartHook n := by
  induction l with
  | nil => simp [sysUpdatePass] at hx
  | cons s l ih =>
    unfold sysUpdatePass sysUpdateStep at hx
    rcases List.mem_append.mp hx with hx | hx
    · rcases List.mem_append.mp hx with hx | hx
      · rw [triggerStartS_started (hall s (List.mem_cons_self s l))] at hx
        simp at hx
      · rcases mem_invokeLogged hx with rfl | rfl <;> intro n <;> simp
    · exact ih (fun t ht => hall t (List.mem_cons_of_mem _ ht)) hx

/-! ## Claim theorems -/

/-- Claim C4: for every unit (System or Component), `started` goes
false to true exactly once on its first dispatch and is never reset:
`triggerStart` always leaves `started = true`, is a strict no-op on an
already-started unit (the start hook is not retried), reports a
throwing start hook and marks the unit started anyway, a per-frame
update pass only ever sets `started` to true on each unit, and a pass
over already-started units emits no further start invocations. -/
theorem c4 (s : Sys) (c : Comp) (l : List Sys) (go : String) (cl : List Comp) :
    ((triggerStartS s).1.started = true) ∧
    ((triggerStartC c).1.started = true) ∧
    (s.started = true → triggerStartS s = (s, [])) ∧
    (c.started = true → triggerStartC c = (c, [])) ∧
    (triggerStartS (triggerStartS s).1 = ((triggerStartS s).1, [])) ∧
    (s.started = false → s.start = Hook.throws →
      (triggerStartS s).2 =
        [Ev.sysStartHook s.name, Ev.errLog (s.name ++ " start error")]) ∧
    ((sysUpdatePass l).1 = l.map (fun t => {t with started := true})) ∧
    ((compsUpdatePass go cl).1 = cl.map (fun t => {t with started := true})) ∧
    ((∀ t ∈ l, t.started = true) →
      ∀ x ∈ (sysUpdatePass l).2, ∀ n, x ≠ Ev.sysStartHook n) := by
  refine ⟨?_, ?_, ?_, ?_, ?_, ?_, sysUpdatePass_fst l, compsUpdatePass_fst go cl, ?_⟩
  · rw [triggerStartS_fst]
  · rw [triggerStartC_fst]
  · intro h; exact triggerStartS_started h
  · intro h; exact triggerStartC_started h
  · exact triggerStartS_started (by rw [triggerStartS_fst])
  · intro h1 h2; simp [triggerStartS, h1, h2, invokeLogged]
  · intro hall x hx; exact sysUpdatePass_no_start hall hx

/-- Claim C5: `addSystem` with an instance of an already-registered
concrete System type is rejected: it warns, returns an absent result
and leaves the whole game state (registry included) unchanged. -/
theorem c5 (g : Game) (s : Sys) (h : ∃ t ∈ g.systems, t.ctor = s.ctor) :
    g.addSystem (AddArg.instArg s) =
      (g, [Ev.warnLog (s.name ++ " System has been added")], none, none) := by
  obtain ⟨t, ht, htc⟩ := h
  have hany : g.systems.any (fun item => item.ctor == s.ctor) = true :=
    List.any_eq_true.mpr ⟨t, ht, by simp [htc]⟩
  simp [Game.addSystem, hany]

/-- A registry already holding a system of concrete constructor 4. -/
def gDup : Game := {game0 with systems := [sys0 5 "D" 4]}

/-- Witness for C5: a second instance of constructor 4 is rejected
without mutation. -/
theorem c5_witness :
    (∃ t ∈ gDup.systems, t.ctor = (sys0 6 "E" 4).ctor) ∧
    gDup.addSystem (AddArg.instArg (sys0 6 "E" 4)) =
      (gDup, [Ev.warnLog ((sys0 6 "E" 4).name ++ " System has been added")], none, none) :=
  ⟨⟨sys0 5 "D" 4, by decide, by decide⟩, c5 gDup (sys0 6 "E" 4) ⟨sys0 5 "D" 4, by decide, by decide⟩⟩

/-- Claim C8: `loadScene` with mode SINGLE replaces only the primary
scene, with mode MULTI_CANVAS appends to the secondary scenes leaving
the primary untouched, is a complete no-op without a scene, and on
success emits exactly one `sceneChanged` event carrying the scene, mode
and params. -/
theorem c8 (g : Game) (sc : Scene) (p : Nat) (ms : List Scene)
    (h : g.multiScenes = some ms) :
    g.loadScene (some sc) Mode.single p =
      ({g with scene := some sc}, [Ev.sceneChanged sc.name Mode.single p], none) ∧
    g.loadScene (some sc) Mode.multiCanvas p =
      ({g with multiScenes := some (ms ++ [sc])},
        [Ev.sceneChanged sc.name Mode.multiCanvas p], none) ∧
    (∀ m, g.loadScene none m p = (g, [], none)) := by
  refine ⟨rfl, ?_, fun m => rfl⟩
  simp [Game.loadScene, h]

/-- Witness for C8 at a concrete running game. -/
theorem c8_witness :
    gT.loadScene (some ⟨"n2", []⟩) Mode.single 7 =
      ({gT with scene := some ⟨"n2", []⟩}, [Ev.sceneChanged "n2" Mode.single 7], none) ∧
    gT.loadScene (some ⟨"n2", []⟩) Mode.multiCanvas 7 =
      ({gT with multiScenes := some ([scS] ++ [⟨"n2", []⟩])},
        [Ev.sceneChanged "n2" Mode.multiCanvas 7], none) ∧
    (∀ m, gT.loadScene none m 7 = (gT, [], none)) :=
  c8 gT ⟨"n2", []⟩ 7 [scS] rfl

theorem isSysUpdPhase_not_comp {x : Ev} (h : isSysUpdPhase x = true) : isCompEv x = false := by
  cases x <;> first
    | rfl
    | simp [isSysUpdPhase] at h

theorem isSysLatePhase_not_comp {x : Ev} (h : isSysLatePhase x = true) : isCompEv x = false := by
  cases x <;> first
    | rfl
    | simp [isSysLatePhase] at h

/-- Claim C3: within one frame tick the trace decomposes into four
consecutive phases — component update (with lazy triggerStart), then
component lateUpdate, then System update (with lazy triggerStart), then
System lateUpdate — and the update hook of every component of every
gameObject in the dispatched population (primary scene first, then
every secondary scene) is invoked during the first phase. -/
theorem c3 (g : Game) (sc : Scene) (ms : List Scene)
    (h1 : g.scene = some sc) (h2 : g.multiScenes = some ms) :
    ∃ p1 p2 p3 p4,
      (g.tick).2.1 = p1 ++ p2 ++ p3 ++ p4 ∧
      (∀ x ∈ p1, isCompUpdPhase x = true) ∧
      (∀ x ∈ p2, isCompLatePhase x = true) ∧
      (∀ x ∈ p3, isSysUpdPhase x = true) ∧
      (∀ x ∈ p4, isSysLatePhase x = true) ∧
      (∀ go ∈ sc.gameObjects ++ (ms.map (fun s => s.gameObjects)).flatten,
        ∀ c ∈ go.components, c.update ≠ Hook.absent →
          Ev.compUpdateHook go.name c.name ∈ p1) := by
  refine ⟨(goLoopUpdate (sc.gameObjects ++ (ms.map (fun s => s.gameObjects)).flatten)).2,
    goLoopLate (goLoopUpdate (sc.gameObjects ++ (ms.map (fun s => s.gameObjects)).flatten)).1,
    (sysUpdatePass g.systems).2,
    sysLatePass (sysUpdatePass g.systems).1,
    ?_, fun x hx => mem_goLoopUpdate hx, fun x hx => mem_goLoopLate hx,
    fun x hx => mem_sysUpdatePass hx, fun x hx => mem_sysLatePass hx,
    fun go hgo c hc hu => coverage_goLoopUpdate hgo hc hu⟩
  simp [Game.tick, h1, h2, gameObjectLoop, List.append_assoc]

/-- Witness for C3 at a concrete running game with a primary and a
secondary scene. -/
theorem c3_witness :
    ∃ p1 p2 p3 p4,
      (gT.tick).2.1 = p1 ++ p2 ++ p3 ++ p4 ∧
      (∀ x ∈ p1, isCompUpdPhase x = true) ∧
      (∀ x ∈ p2, isCompLatePhase x = true) ∧
      (∀ x ∈ p3, isSysUpdPhase x = true) ∧
      (∀ x ∈ p4, isSysLatePhase x = true) ∧
      (∀ go ∈ scT.gameObjects ++ (([scS].map (fun s => s.gameObjects)).flatten),
        ∀ c ∈ go.components, c.update ≠ Hook.absent →
          Ev.compUpdateHook go.name c.name ∈ p1) :=
  c3 gT scT [scS] rfl rfl

/-- Claim C9: when the primary scene is absent, the tick callback skips
component dispatch entirely (no component hook of any scene, secondary
MULTI_CANVAS scenes included, is invoked) while the System two-pass
dispatch still runs — every registered system with an update hook is
updated — and the tick raises nothing. -/
theorem c9 (g : Game) (h : g.scene = none) :
    (g.tick).2.2 = none ∧
    (g.tick).2.1 = (sysUpdatePass g.systems).2 ++ sysLatePass (sysUpdatePass g.systems).1 ∧
    (∀ x ∈ (g.tick).2.1, isCompEv x = false) ∧
    (∀ s ∈ g.systems, s.update ≠ Hook.absent →
      Ev.sysUpdateHook s.name ∈ (g.tick).2.1) := by
  have htr : (g.tick).2.1 =
      (sysUpdatePass g.systems).2 ++ sysLatePass (sysUpdatePass g.systems).1 := by
    simp [Game.tick, h]
  refine ⟨by simp [Game.tick, h], htr, ?_, ?_⟩
  · intro x hx
    rw [htr] at hx
    rcases List.mem_append.mp hx with hx | hx
    · exact isSysUpdPhase_not_comp (mem_sysUpdatePass hx)
    · exact isSysLatePhase_not_comp (mem_sysLatePass hx)
  · intro s hs hu
    rw [htr]
    exact List.mem_append_left _ (coverage_sysUpdatePass hs hu)

/-- Witness for C9: a game with no primary scene but a populated
secondary scene and one system. -/
theorem c9_witness :
    (gN.tick).2.2 = none ∧
    (gN.tick).2.1 = (sysUpdatePass gN.systems).2 ++ sysLatePass (sysUpdatePass gN.systems).1 ∧
    (∀ x ∈ (gN.tick).2.1, isCompEv x = false) ∧
    (∀ s ∈ gN.systems, s.update ≠ Hook.absent →
      Ev.sysUpdateHook s.name ∈ (gN.tick).2.1) :=
  c9 gN rfl

/-- Claim C7: an accepted registration performs, in order: the `game`
back-reference assignment, `init` (when present), observer wiring
(`setSystemObserver` then `initObserver`), `awake` (when present, under
failure containment), then appends the system to the registry and
returns it — in particular a throwing `awake` is logged and the system
is still appended and returned, with no exception escaping. -/
theorem c7 (g : Game) (s : Sys)
    (hdup : g.systems.any (fun item => item.ctor == s.ctor) = false)
    (hinit : s.init ≠ Hook.throws) :
    (g.addSystem (AddArg.instArg s)).1.systems = g.systems ++ [{s with gameRef := true}] ∧
    (g.addSystem (AddArg.instArg s)).2.2.1 = some {s with gameRef := true} ∧
    (g.addSystem (AddArg.instArg s)).2.2.2 = none ∧
    (g.addSystem (AddArg.instArg s)).2.1 =
      Ev.setGameRef s.name ::
        ((invoke s.init (Ev.sysInitHook s.name) (Exn.hookError s.name "init")).1
          ++ ([Ev.setSysObs s.name, Ev.initObs s.name]
            ++ invokeLogged s.awake (Ev.sysAwakeHook s.name) (s.name ++ " awake error"))) ∧
    (s.awake = Hook.throws →
      Ev.errLog (s.name ++ " awake error") ∈ (g.addSystem (AddArg.instArg s)).2.1) := by
  cases hi : s.init
  case throws => exact absurd hi hinit
  all_goals
    exact ⟨by simp [Game.addSystem, hdup, hi, invoke, invokeLogged],
      by simp [Game.addSystem, hdup, hi, invoke, invokeLogged],
      by simp [Game.addSystem, hdup, hi, invoke, invokeLogged],
      by simp [Game.addSystem, hdup, hi, invoke, invokeLogged],
      fun ha => by simp [Game.addSystem, hdup, hi, ha, invoke, invokeLogged]⟩

/-- A system whose awake hook throws (and whose init hook is present
and succeeds). -/
def sysAw : Sys := {sys0 4 "F" 4 with awake := Hook.throws, init := Hook.ok}

/-- Witness for C7: registering `sysAw` on an empty registry appends
and returns it even though `awake` throws. -/
theorem c7_witness :
    (game0.addSystem (AddArg.instArg sysAw)).1.systems =
      game0.systems ++ [{sysAw with gameRef := true}] ∧
    (game0.addSystem (AddArg.instArg sysAw)).2.2.1 = some {sysAw with gameRef := true} ∧
    (game0.addSystem (AddArg.instArg sysAw)).2.2.2 = none ∧
    (game0.addSystem (AddArg.instArg sysAw)).2.1 =
      Ev.setGameRef sysAw.name ::
        ((invoke sysAw.init (Ev.sysInitHook sysAw.name) (Exn.hookError sysAw.name "init")).1
          ++ ([Ev.setSysObs sysAw.name, Ev.initObs sysAw.name]
            ++ invokeLogged sysAw.awake (Ev.sysAwakeHook sysAw.name)
              (sysAw.name ++ " awake error"))) ∧
    (sysAw.awake = Hook.throws →
      Ev.errLog (sysAw.name ++ " awake error") ∈ (game0.addSystem (AddArg.instArg sysAw)).2.1) :=
  c7 game0 sysAw (by decide) (by decide)

/-- Claim C10: `getSystem` with a constructor matches by `instanceof`
(a subclass instance answers a base-class query), while `addSystem`'s
duplicate check and `removeSystem`'s constructor lookup compare exact
constructor identity — so a base instance and a subclass instance can
be registered together, and removing by the base constructor does not
remove the subclass instance (it removes the base instance when
present, and is a no-op on a registry holding only the subclass). -/
theorem c10 (base sub : Sys) (g0 g1 g2 : Game)
    (hne : base.ctor ≠ sub.ctor) (hsup : base.ctor ∈ sub.supers)
    (hinit : sub.init ≠ Hook.throws) (hdes : base.destroy = Hook.absent)
    (hg0 : g0.systems = [base]) (hg1 : g1.systems = [sub]) (hg2 : g2.systems = [base, sub]) :
    g1.getSystem (GetQuery.byCtor base.ctor) = some sub ∧
    (g0.addSystem (AddArg.instArg sub)).1.systems = [base, {sub with gameRef := true}] ∧
    (g0.addSystem (AddArg.instArg sub)).2.2.1 = some {sub with gameRef := true} ∧
    g1.removeSystem (some (SysIdent.byCtor base.ctor)) = (g1, [], none) ∧
    g2.getSystem (GetQuery.byCtor base.ctor) = some base ∧
    (g2.removeSystem (some (SysIdent.byCtor base.ctor))).1.systems = [sub] ∧
    (g2.removeSystem (some (SysIdent.byCtor base.ctor))).2.2 = none := by
  have hne' : sub.ctor ≠ base.ctor := Ne.symm hne
  refine ⟨?_, ?_, ?_, ?_, ?_, ?_, ?_⟩
  · simp [Game.getSystem, hg1, instOf, hne', List.contains, hsup]
  · cases hi : sub.init
    case throws => exact absurd hi hinit
    all_goals simp [Game.addSystem, hg0, hne, hne', hi, invoke, invokeLogged]
  · cases hi : sub.init
    case throws => exact absurd hi hinit
    all_goals simp [Game.addSystem, hg0, hne, hne', hi, invoke, invokeLogged]
  · simp [Game.removeSystem, findSystemIdx, hg1, hne']
  · simp [Game.getSystem, hg2, instOf]
  · simp [Game.removeSystem, findSystemIdx, hg2, hdes, invoke]
  · simp [Game.removeSystem, findSystemIdx, hg2, hdes, invoke]

/-- Registry fixtures for the C10 witness: `[Base]`, `[Sub]` and
`[Base, Sub]`. -/
def gBase : Game := {game0 with systems := [sysBase]}

def gSub : Game := {game0 with systems := [sysSub]}

def gBoth : Game := {game0 with systems := [sysBase, sysSub]}

/-- Witness for C10 at the concrete base/subclass pair. -/
theorem c10_witness :
    gSub.getSystem (GetQuery.byCtor sysBase.ctor) = some sysSub ∧
    (gBase.addSystem (AddArg.instArg sysSub)).1.systems =
      [sysBase, {sysSub with gameRef := true}] ∧
    (gBase.addSystem (AddArg.instArg sysSub)).2.2.1 = some {sysSub with gameRef := true} ∧
    gSub.removeSystem (some (SysIdent.byCtor sysBase.ctor)) = (gSub, [], none) ∧
    gBoth.getSystem (GetQuery.byCtor sysBase.ctor) = some sysBase ∧
    (gBoth.removeSystem (some (SysIdent.byCtor sysBase.ctor))).1.systems = [sysSub] ∧
    (gBoth.removeSystem (some (SysIdent.byCtor sysBase.ctor))).2.2 = none :=
  c10 sysBase sysSub gBase gSub gBoth (by decide) (by decide) (by decide) (by decide)
    rfl rfl rfl

theorem findIdx?_some_get {p : Sys → Bool} {l : List Sys} {i : Nat}
    (h : l.findIdx? p = some i) : ∃ t, l[i]? = some t ∧ t ∈ l := by
  induction l generalizing i with
  | nil => simp [List.findIdx?] at h
  | cons a l ih =>
    rw [List.findIdx?_cons] at h
    by_cases hp : p a
    · simp [hp] at h
      subst h
      exact ⟨a, by simp, List.mem_cons_self a l⟩
    · simp [hp] at h
      obtain ⟨j, hj, rfl⟩ := h
      obtain ⟨t, ht, htm⟩ := ih hj
      exact ⟨t, by simpa using ht, List.mem_cons_of_mem _ htm⟩

theorem removeSystem_noThrow {g : Game} (hall : ∀ s ∈ g.systems, s.destroy ≠ Hook.throws)
    (idn : SysIdent) :
    (g.removeSystem (some idn)).2.2 = none ∧
    ∀ s ∈ (g.removeSystem (some idn)).1.systems, s.destroy ≠ Hook.throws := by
  cases hfind : findSystemIdx g.systems idn with
  | none =>
    constructor
    · simp [Game.removeSystem, hfind]
    · intro s hs
      apply hall
      simpa [Game.removeSystem, hfind] using hs
  | some i =>
    cases hget : g.systems[i]? with
    | none =>
      constructor
      · simp [Game.removeSystem, hfind, hget]
      · intro s hs
        apply hall
        simpa [Game.removeSystem, hfind, hget] using hs
    | some t =>
      have htm : t ∈ g.systems := by
        obtain ⟨hlt, he⟩ := List.getElem?_eq_some_iff.mp hget
        exact he ▸ List.getElem_mem hlt
      have hd := hall t htm
      cases hdt : t.destroy
      case throws => exact absurd hdt hd
      all_goals
        constructor
        · simp [Game.removeSystem, hfind, hget, hdt, invoke]
        · intro s hs
          apply hall
          have hs' : s ∈ g.systems.eraseIdx i := by
            simpa [Game.removeSystem, hfind, hget, hdt, invoke] using hs
          exact (List.eraseIdx_sublist g.systems i).mem hs'

theorem destroyLoop_noThrow (l : List Sys) :
    ∀ g : Game, (∀ s ∈ g.systems, s.destroy ≠ Hook.throws) →
      (destroyLoop g l).2.2 = none := by
  induction l with
  | nil => intro g hall; rfl
  | cons s rest ih =>
    intro g hall
    have h := removeSystem_noThrow hall (SysIdent.byInstance s)
    simp only [destroyLoop, h.1]
    exact ih _ h.2

/-- Counterexample to C2 as stated: on a registry of three systems
whose second system's destroy hook throws, `destroySystems` propagates
the exception and leaves two systems registered (length 2, not 0). -/
theorem c2_counterexample :
    (gABC.destroySystems).1.systems.length = 2 ∧ (gABC.destroySystems).2.2 ≠ none := by
  decide

/-- Claim C2 amended: `destroySystems` empties the registry (and raises
nothing) provided no registered system's destroy hook throws; when one
throws, the exception escapes `destroySystems` and the throwing system
and those after it remain registered. -/
theorem c2_amended (g : Game) (h : ∀ s ∈ g.systems, s.destroy ≠ Hook.throws) :
    (g.destroySystems).1.systems = [] ∧ (g.destroySystems).2.2 = none := by
  have hl := destroyLoop_noThrow g.systems g h
  constructor <;> simp [Game.destroySystems, hl]

/-- A registry of three systems whose destroy hooks all succeed. -/
def sysB : Sys := {sys0 2 "B" 2 with destroy := Hook.ok}

def gABCok : Game := {game0 with systems := [sysA, sysB, sysC]}

/-- Witness for the amended C2: three well-behaved systems are all
removed. -/
theorem c2_amended_witness :
    (gABCok.destroySystems).1.systems = [] ∧ (gABCok.destroySystems).2.2 = none :=
  c2_amended gABCok (by decide)

/-- Counterexample to C6 as stated: a first `destroy` completes, and
the second `destroy` call raises a TypeError (the null primary scene is
dereferenced) instead of being a harmless no-op. -/
theorem c6_counterexample :
    (gLive.destroy).2.2 = none ∧ ((gLive.destroy).1.destroy).2.2 = some Exn.typeError := by
  decide

/-- Claim C6 amended: `destroy` is not idempotent — on a game whose
primary scene reference is already cleared (as after a completed
destroy) and which is not playing, a further `destroy` call detaches
listeners, then throws a TypeError dereferencing the absent scene,
leaving the state (cleared fields included) unchanged. -/
theorem c6_amended (g : Game) (h1 : g.scene = none) (h2 : g.playing = false) :
    g.destroy = (g, [Ev.removeAllListeners], some Exn.typeError) := by
  simp [Game.destroy, Game.pause, h1, h2]

/-- The state left by a completed destroy of `gLive`. -/
def gCleared : Game := (gLive.destroy).1

/-- Witness for the amended C6: the cleared state makes the second
destroy throw. -/
theorem c6_amended_witness :
    gCleared.destroy = (gCleared, [Ev.removeAllListeners], some Exn.typeError) :=
  c6_amended gCleared (by decide) (by decide)

/-- Counterexample to C1 as stated: `removeSystem` resolving to a
registered system whose destroy hook throws lets the exception unwind
out of `removeSystem`, and the entry is NOT removed (the registry still
has length 1). -/
theorem c1_counterexample :
    (gRem.removeSystem (some (SysIdent.byInstance sysDT))).2.2 =
      some (Exn.hookError "S" "destroy") ∧
    (gRem.removeSystem (some (SysIdent.byInstance sysDT))).1.systems.length = 1 := by
  decide

/-- Claim C1 amended: on a live game no exception unwinds out of
`start`, `pause` or `resume`, and `addSystem` contains a throwing
`awake` (any non-throwing `init` gives an exception-free registration);
but a throwing `init` escapes `addSystem` leaving the game unchanged,
and a throwing `destroy` escapes `removeSystem` leaving the resolved
entry registered, while a non-throwing `destroy` lets `removeSystem`
complete without exception. -/
theorem c1_amended (g : Game) (s t : Sys) (idn : SysIdent) (i : Nat)
    (hticker : g.ticker = true) (hmulti : g.multiScenes ≠ none) :
    (g.pause).2.2 = none ∧
    (g.resume).2.2 = none ∧
    (g.start).2.2 = none ∧
    (s.init ≠ Hook.throws → (g.addSystem (AddArg.instArg s)).2.2.2 = none) ∧
    (s.init = Hook.throws →
      g.systems.any (fun item => item.ctor == s.ctor) = false →
      (g.addSystem (AddArg.instArg s)).2.2.2 = some (Exn.hookError s.name "init") ∧
      (g.addSystem (AddArg.instArg s)).1 = g) ∧
    (findSystemIdx g.systems idn = some i → g.systems[i]? = some t →
      (t.destroy = Hook.throws →
        g.removeSystem (some idn) =
          (g, [Ev.sysDestroyHook t.name], some (Exn.hookError t.name "destroy"))) ∧
      (t.destroy ≠ Hook.throws → (g.removeSystem (some idn)).2.2 = none)) := by
  obtain ⟨ms, hms⟩ := Option.ne_none_iff_exists'.mp hmulti
  refine ⟨?_, ?_, ?_, ?_, ?_, ?_⟩
  · by_cases hp : g.playing
    · simp [Game.pause, hp, hticker, Game.triggerPause, getAllGameObjects, hms]
    · simp [Game.pause, hp]
  · by_cases hp : g.playing
    · simp [Game.resume, hp]
    · simp [Game.resume, hp, hticker, Game.triggerResume, getAllGameObjects, hms]
  · by_cases hp : g.playing
    · simp [Game.start, hp]
    · simp [Game.start, hp, hticker]
  · intro hinit
    by_cases hdup : g.systems.any (fun item => item.ctor == s.ctor)
    · simp [Game.addSystem, hdup]
    · cases hi : s.init
      · simp [Game.addSystem, hdup, hi, invoke]
      · simp [Game.addSystem, hdup, hi, invoke]
      · exact absurd hi hinit
  · intro hi hdup
    constructor <;> simp [Game.addSystem, hdup, hi, invoke]
  · intro hfind hget
    constructor
    · intro hdt
      simp [Game.removeSystem, hfind, hget, hdt, invoke]
    · intro hdt
      cases hd : t.destroy
      case throws => exact absurd hd hdt
      all_goals simp [Game.removeSystem, hfind, hget, hd, invoke]

/-- Witness for the amended C1 on a concrete live game whose one system
has a throwing destroy hook. -/
theorem c1_amended_witness :
    (gRem.pause).2.2 = none ∧
    (gRem.resume).2.2 = none ∧
    (gRem.start).2.2 = none ∧
    (sysAw.init ≠ Hook.throws →
      (gRem.addSystem (AddArg.instArg sysAw)).2.2.2 = none) ∧
    (sysAw.init = Hook.throws →
      gRem.systems.any (fun item => item.ctor == sysAw.ctor) = false →
      (gRem.addSystem (AddArg.instArg sysAw)).2.2.2 =
        some (Exn.hookError sysAw.name "init") ∧
      (gRem.addSystem (AddArg.instArg sysAw)).1 = gRem) ∧
    (findSystemIdx gRem.systems (SysIdent.byInstance sysDT) = some 0 →
      gRem.systems[0]? = some sysDT →
      (sysDT.destroy = Hook.throws →
        gRem.removeSystem (some (SysIdent.byInstance sysDT)) =
          (gRem, [Ev.sysDestroyHook sysDT.name],
            some (Exn.hookError sysDT.name "destroy"))) ∧
      (sysDT.destroy ≠ Hook.throws →
        (gRem.removeSystem (some (SysIdent.byInstance sysDT))).2.2 = none)) :=
  c1_amended gRem sysAw sysDT (SysIdent.byInstance sysDT) 0 rfl (by decide)

end Eva
